import Mathlib

/-!
Shallow embedding of the frame-cache / playback subsystem of the
consoleVideoPlayer repository.

Sources embedded:
* `src/src/VideoPlayer.h` and `src/src/VideoPlayer.cpp` (the Frame Store,
  the Playback Controller operations `seek`, `syncToTimestamp`, `update`,
  `getCurrentFrame`, `play`/`pause`/`stop`, the eviction routine
  `evictOldFrames`, the cache effects of the preload phase of `loadVideo`
  and of the background decoder loop `backgroundDecoderTask`).
* `src/src/JackTransportClient.h` / `.cpp` (the Clock Adapter accessors).

Modelling conventions:
* C `double` values (`fps`, `duration`, timestamps in seconds) are embedded
  as rationals; the structure of every arithmetic expression is kept.
* A C cast `(int)x` truncates toward zero: `truncToZero`.
* `std::fmod` is `cFmod` (remainder with the sign of the dividend).
* `std::chrono::steady_clock` instants are integers counting microseconds;
  each operation that reads the clock takes the current instant `now` as an
  explicit argument.  `duration_cast<milliseconds>` is `Int.tdiv · 1000`
  (C++ integer division truncates toward zero).
* `std::unordered_map<int, VideoFrame>` is an association list with unique
  keys (`frameCache[i] = vf` replaces the binding); `std::list<int>` is a
  `List ℤ`.
* The pixel payload of a `VideoFrame` is kept abstract as a list of bytes;
  none of the embedded control flow inspects it.
-/

/-- C cast of a nonnegative-or-negative real to `int`: truncation toward
zero. -/
def truncToZero (q : ℚ) : ℤ :=
  if q < 0 then -⌊-q⌋ else ⌊q⌋

/-- C `fmod x y`: remainder of `x / y`, carrying the sign of `x`
(`fmod x y = x - trunc (x/y) * y`). -/
def cFmod (x y : ℚ) : ℚ :=
  x - (truncToZero (x / y) : ℚ) * y

namespace VideoPlayer

/-- `struct VideoFrame` (VideoPlayer.h, lines 20-25): RGB24 pixel data plus
geometry. -/
structure VideoFrame where
  data : List ℕ
  width : ℤ
  height : ℤ
  linesize : ℤ
deriving DecidableEq

/-- `static constexpr size_t MAX_CACHED_FRAMES = 300` (VideoPlayer.h, line 87). -/
def MAX_CACHED_FRAMES : ℕ := 300

/-- `static constexpr int DECODE_AHEAD_FRAMES = 150` (VideoPlayer.h, line 88). -/
def DECODE_AHEAD_FRAMES : ℤ := 150

/-- `static constexpr int PRELOAD_FRAMES = 150` (VideoPlayer.h, line 89). -/
def PRELOAD_FRAMES : ℤ := 150

/-- `static constexpr int SEEK_THRESHOLD = 50` (VideoPlayer.h, line 90). -/
def SEEK_THRESHOLD : ℤ := 50

/-- The two cache containers guarded by `cacheMutex` (VideoPlayer.h, lines
93-96): `std::unordered_map<int, VideoFrame> frameCache` (association list
with unique keys) and `std::list<int> cacheOrder`. -/
structure CacheState where
  frameCache : List (ℤ × VideoFrame)
  cacheOrder : List ℤ
deriving DecidableEq

/-- `frameCache.erase(k)`: remove the (unique) binding of key `k`. -/
def eraseKey (fc : List (ℤ × VideoFrame)) (k : ℤ) : List (ℤ × VideoFrame) :=
  fc.filter (fun p => !(p.1 == k))

/-- `VideoPlayer::evictOldFrames` (VideoPlayer.cpp, lines 401-410):
`while (frameCache.size() > MAX_CACHED_FRAMES) { if (cacheOrder.empty())
break; oldestFrame = cacheOrder.front(); cacheOrder.pop_front();
frameCache.erase(oldestFrame); }`.  Pure FIFO trim; the playback position
is not consulted.  (When `cacheOrder` is empty the loop returns the cache
unchanged whether or not it entered the body, so the two cases collapse
into the first equation.) -/
def evictOldFrames : List (ℤ × VideoFrame) → List ℤ →
    List (ℤ × VideoFrame) × List ℤ
  | fc, [] => (fc, [])
  | fc, oldest :: rest =>
    if fc.length > MAX_CACHED_FRAMES then evictOldFrames (eraseKey fc oldest) rest
    else (fc, oldest :: rest)

/-- `evictOldFrames` lifted to `CacheState`. -/
def evictCache (st : CacheState) : CacheState :=
  let r := evictOldFrames st.frameCache st.cacheOrder
  ⟨r.1, r.2⟩

/-- `frameCache[i] = vf; cacheOrder.push_back(i)` (the insertion pattern of
VideoPlayer.cpp, lines 160-164, 364-370 and 493-499). -/
def insertFrame (st : CacheState) (i : ℤ) (f : VideoFrame) : CacheState :=
  { frameCache := (i, f) :: eraseKey st.frameCache i,
    cacheOrder := st.cacheOrder ++ [i] }

/-- Cache effect of one productive iteration of
`VideoPlayer::backgroundDecoderTask` (VideoPlayer.cpp, lines 452-499): if
`sequentialFrameIndex` is already cached the iteration only advances the
cursor; otherwise the decoded frame is inserted and `evictOldFrames` runs
in the same critical section.  (`VideoPlayer::decodeFrame`, lines 306-387,
has the same insert-then-evict shape.) -/
def decodeStep (st : CacheState) (i : ℤ) (f : VideoFrame) : CacheState :=
  if (st.frameCache.lookup i).isSome then st
  else evictCache (insertFrame st i f)

/-- Cache contents after the preload phase of `VideoPlayer::loadVideo`
(VideoPlayer.cpp, lines 128-177): frames `0 .. k-1` inserted sequentially,
`k ≤ min(150, totalFrames) ≤ 150`, with no eviction call. -/
def preloadState (k : ℕ) (f : ℕ → VideoFrame) : CacheState :=
  { frameCache := (List.range k).map (fun j => (Int.ofNat j, f j)),
    cacheOrder := (List.range k).map (fun j => Int.ofNat j) }

/-- The Frame Store states reachable by the operations the program actually
performs on the two cache containers: the synchronous preload at load time
(at most 150 sequential inserts into an empty cache, no eviction), then any
sequence of background-decoder insert steps (each running `evictOldFrames`
in the same critical section), stand-alone evictions, and reads (reads —
`getCurrentFrame`, `getBufferedFrameCount` — do not modify the containers,
hence the identity constructor). -/
inductive ReachableCache : CacheState → Prop
  | load (k : ℕ) (f : ℕ → VideoFrame) (hk : k ≤ 150) :
      ReachableCache (preloadState k f)
  | decode (st : CacheState) (i : ℤ) (f : VideoFrame) :
      ReachableCache st → ReachableCache (decodeStep st i f)
  | evict (st : CacheState) :
      ReachableCache st → ReachableCache (evictCache st)
  | read (st : CacheState) :
      ReachableCache st → ReachableCache st

/-- The mutable playback state of `VideoPlayer` (VideoPlayer.h, lines
64-96) together with the immutable metadata set by `loadVideo`. -/
structure PlayerState where
  loaded : Bool
  playing : Bool
  fps : ℚ
  duration : ℚ
  totalFrames : ℤ
  currentFrameIndex : ℤ
  lastFrameTime : ℤ
  frameDuration : ℤ
  lastValidFrameIndex : ℤ
  externalSyncActive : Bool
  lastSyncTime : ℤ
  cache : CacheState
deriving DecidableEq

/-- `totalFrames = (int)(duration * fps)` (VideoPlayer.cpp, line 78). -/
def computeTotalFrames (duration fps : ℚ) : ℤ :=
  truncToZero (duration * fps)

/-- `std::max(0, std::min(targetFrame, totalFrames - 1))` (VideoPlayer.cpp,
lines 215 and 232). -/
def clampFrame (totalFrames target : ℤ) : ℤ :=
  max 0 (min target (totalFrames - 1))

/-- `VideoPlayer::play` (VideoPlayer.cpp, lines 193-198). -/
def play (s : PlayerState) (now : ℤ) : PlayerState :=
  if s.loaded = false then s
  else { s with playing := true, lastFrameTime := now }

/-- `VideoPlayer::pause` (VideoPlayer.cpp, lines 200-203). -/
def pause (s : PlayerState) : PlayerState :=
  { s with playing := false }

/-- `VideoPlayer::stop` (VideoPlayer.cpp, lines 205-209). -/
def stop (s : PlayerState) : PlayerState :=
  { s with playing := false, currentFrameIndex := 0 }

/-- `VideoPlayer::seek` (VideoPlayer.cpp, lines 211-219): clamp
`(int)(seconds * fps)` into `[0, totalFrames-1]`; reset the internal frame
timer.  No modulo wrap, no external-sync bookkeeping. -/
def seek (s : PlayerState) (now : ℤ) (seconds : ℚ) : PlayerState :=
  if s.loaded = false ∨ s.totalFrames = 0 then s
  else
    let targetFrame := truncToZero (seconds * s.fps)
    { s with currentFrameIndex := clampFrame s.totalFrames targetFrame,
             lastFrameTime := now }

/-- The looping arithmetic of `VideoPlayer::syncToTimestamp`
(VideoPlayer.cpp, lines 226-227): `loopedTime = fmod(t, duration); if
(loopedTime < 0) loopedTime += duration`. -/
def wrapTime (duration t : ℚ) : ℚ :=
  let loopedTime := cFmod t duration
  if loopedTime < 0 then loopedTime + duration else loopedTime

/-- `VideoPlayer::syncToTimestamp` (VideoPlayer.cpp, lines 221-240).  Note
the guard: the call is a no-op unless the player is loaded, has frames and
is playing. -/
def syncToTimestamp (s : PlayerState) (now : ℤ) (audioTimestamp : ℚ) :
    PlayerState :=
  if s.loaded = false ∨ s.totalFrames = 0 ∨ s.playing = false then s
  else
    let targetFrame := truncToZero (wrapTime s.duration audioTimestamp * s.fps)
    { s with currentFrameIndex := clampFrame s.totalFrames targetFrame,
             externalSyncActive := true,
             lastSyncTime := now }

/-- Body of the frame-advance loop of `VideoPlayer::update`
(VideoPlayer.cpp, lines 294-299): `currentFrameIndex++; if
(currentFrameIndex >= totalFrames) currentFrameIndex = 0`. -/
def stepFrame (totalFrames cur : ℤ) : ℤ :=
  if cur + 1 ≥ totalFrames then 0 else cur + 1

/-- `n`-fold iteration of `stepFrame`. -/
def advanceFrames (totalFrames : ℤ) : ℕ → ℤ → ℤ
  | 0, cur => cur
  | n + 1, cur => advanceFrames totalFrames n (stepFrame totalFrames cur)

/-- Number of iterations of `while (elapsed >= frameDuration) { ...; elapsed
-= frameDuration }` (VideoPlayer.cpp, lines 293-303): for the only runtime
case `frameDuration > 0` this is `⌊max elapsed 0 / frameDuration⌋` (the loop
would not terminate for `frameDuration ≤ 0`, which `loadVideo` never
produces; that branch is mapped to zero iterations). -/
def loopCount (frameDuration elapsed : ℤ) : ℕ :=
  if frameDuration ≤ 0 then 0 else ((max elapsed 0) / frameDuration).toNat

/-- The timer-based fallback tail of `VideoPlayer::update` (VideoPlayer.cpp,
lines 288-303). -/
def advanceByTimer (s : PlayerState) (now : ℤ) : PlayerState :=
  let elapsed := now - s.lastFrameTime
  let n := loopCount s.frameDuration elapsed
  { s with currentFrameIndex := advanceFrames s.totalFrames n s.currentFrameIndex,
           lastFrameTime := s.lastFrameTime + (n : ℤ) * s.frameDuration }

/-- `VideoPlayer::update` (VideoPlayer.cpp, lines 269-304). -/
def update (s : PlayerState) (now : ℤ) : PlayerState :=
  if s.playing = false ∨ s.loaded = false ∨ s.totalFrames = 0 then s
  else if s.externalSyncActive then
    if Int.tdiv (now - s.lastSyncTime) 1000 < 100 then s
    else advanceByTimer { s with externalSyncActive := false, lastFrameTime := now } now
  else advanceByTimer s now

/-- Offsets tried by the nearby-frame scan of `VideoPlayer::getCurrentFrame`
(VideoPlayer.cpp, line 256): `for (int offset = -5; offset <= 5; offset++)`. -/
def offsetsList : List ℤ := [-5, -4, -3, -2, -1, 0, 1, 2, 3, 4, 5]

/-- The nearby-frame scan of `VideoPlayer::getCurrentFrame`
(VideoPlayer.cpp, lines 256-264): first cached candidate
`frameIndex + offset` lying in `[0, totalFrames)`, offsets in increasing
order. -/
def findNearby (fc : List (ℤ × VideoFrame)) (totalFrames frameIndex : ℤ) :
    List ℤ → Option VideoFrame
  | [] => none
  | o :: rest =>
    if 0 ≤ frameIndex + o ∧ frameIndex + o < totalFrames then
      match fc.lookup (frameIndex + o) with
      | some f => some f
      | none => findNearby fc totalFrames frameIndex rest
    else findNearby fc totalFrames frameIndex rest

/-- `VideoPlayer::getCurrentFrame` (VideoPlayer.cpp, lines 242-267).  The
function only reads: it consults `frameCache` (after the no-op
`ensureFrameLoaded`, lines 390-398) and mutates nothing — in particular the
member `lastValidFrameIndex` (VideoPlayer.h, line 80) is neither read nor
written anywhere in VideoPlayer.cpp. -/
def getCurrentFrame (s : PlayerState) : Option VideoFrame :=
  if s.loaded = false then none
  else
    match s.cache.frameCache.lookup s.currentFrameIndex with
    | some f => some f
    | none => findNearby s.cache.frameCache s.totalFrames s.currentFrameIndex offsetsList

/-- The playback-jump detection at the top of each iteration of
`VideoPlayer::backgroundDecoderTask` (VideoPlayer.cpp, lines 432-444):
`DecoderState` holds the worker-local variables `sequentialFrameIndex`,
`needSeek` and `lastPlaybackFrame`. -/
structure DecoderState where
  sequentialFrameIndex : ℤ
  needSeek : Bool
  lastPlaybackFrame : ℤ
deriving DecidableEq

/-- Lines 438-444 of VideoPlayer.cpp: `if (currentFrame < lastPlaybackFrame
- 10 || currentFrame > lastPlaybackFrame + 200) { sequentialFrameIndex =
currentFrame - 10; if (sequentialFrameIndex < 0) sequentialFrameIndex = 0;
needSeek = true; } lastPlaybackFrame = currentFrame;`. -/
def decoderObservePlayback (ds : DecoderState) (currentFrame : ℤ) :
    DecoderState :=
  if currentFrame < ds.lastPlaybackFrame - 10 ∨
      currentFrame > ds.lastPlaybackFrame + 200 then
    let idx := currentFrame - 10
    { sequentialFrameIndex := if idx < 0 then 0 else idx,
      needSeek := true,
      lastPlaybackFrame := currentFrame }
  else
    { ds with lastPlaybackFrame := currentFrame }

/-- Modelled from the spec: `circularDistance` is declared in
VideoPlayer.h (line 114) but no definition exists anywhere in the
sources of the repository; §4.3 of the spec gives `d = to − from; if d >
total_frames/2: d -= total_frames; if d < −total_frames/2: d +=
total_frames`.  Arguments: `circularDistance totalFrames a b` is the signed
wrapped distance from `a` to `b`. -/
def circularDistance (totalFrames a b : ℤ) : ℤ :=
  let d0 := b - a
  let d1 := if d0 > totalFrames / 2 then d0 - totalFrames else d0
  if d1 < -(totalFrames / 2) then d1 + totalFrames else d1

/-- Spec-side reformulation of one candidate test of the nearby-frame scan
(VideoPlayer.cpp, lines 257-262): the candidate index `j` is in range and
cached. -/
def candidateHit (fc : List (ℤ × VideoFrame)) (totalFrames j : ℤ) : Bool :=
  decide (0 ≤ j) && decide (j < totalFrames) && (fc.lookup j).isSome

/-- Spec-side reformulation of the nearby-frame scan: the first candidate
index `frameIndex + o`, with `o` drawn from `os` in order, that is in range
and cached. -/
def firstNearby (fc : List (ℤ × VideoFrame)) (totalFrames frameIndex : ℤ)
    (os : List ℤ) : Option ℤ :=
  (os.map (fun o => frameIndex + o)).find? (candidateHit fc totalFrames)

/-- Invariant carried by the Frame Store: every cached key appears in the
insertion-order list, and the cache is within the size cap. -/
def cacheInv (st : CacheState) : Prop :=
  (∀ p ∈ st.frameCache, p.1 ∈ st.cacheOrder) ∧
    st.frameCache.length ≤ MAX_CACHED_FRAMES

/-- Concrete 2x2 frame used in concrete instantiations. -/
def exFrameA : VideoFrame := ⟨[0], 2, 2, 6⟩

/-- A second concrete frame, distinct from `exFrameA`. -/
def exFrameB : VideoFrame := ⟨[1], 2, 2, 6⟩

/-- A loaded, playing player: 25 fps, 10 s, 250 frames, cursor at frame 0,
empty cache. -/
def basePlayer : PlayerState :=
  { loaded := true, playing := true, fps := 25, duration := 10,
    totalFrames := 250, currentFrameIndex := 0, lastFrameTime := 0,
    frameDuration := 40000, lastValidFrameIndex := -1,
    externalSyncActive := false, lastSyncTime := 0,
    cache := ⟨[], []⟩ }

/-- `basePlayer` paused. -/
def pausedPlayer : PlayerState :=
  { basePlayer with playing := false }

/-- `basePlayer` whose last successfully displayed frame is recorded as 100
and still cached, while the cursor (frame 0) is not cached. -/
def heldFramePlayer : PlayerState :=
  { basePlayer with lastValidFrameIndex := 100,
                    cache := ⟨[(100, exFrameA)], [100]⟩ }

/-- `basePlayer` with only frame 3 cached (a nearby frame of cursor 0). -/
def nearbyPlayer : PlayerState :=
  { basePlayer with cache := ⟨[(3, exFrameB)], [3]⟩ }

/-- `basePlayer` with the cursor frame 0 cached. -/
def hitPlayer : PlayerState :=
  { basePlayer with cache := ⟨[(0, exFrameA)], [0]⟩ }

/-- `basePlayer` while external sync is active (last SYNC at instant 0). -/
def syncPlayer : PlayerState :=
  { basePlayer with externalSyncActive := true }

end VideoPlayer

namespace JackTransportClient

/-- `jack_latency_range_t` (the min/max latency pair returned by
`jack_port_get_latency_range`). -/
structure LatencyRange where
  latMin : ℕ
  latMax : ℕ
deriving DecidableEq

/-- Observable state of the external JACK server as consumed by the
accessors of JackTransportClient.cpp: transport position, rolling flag,
sample rate, and (when a `system:playback_` port with a resolvable handle
exists) the playback latency range. -/
structure JackServerState where
  posFrame : ℕ
  rolling : Bool
  sampleRate : ℕ
  playbackPort : Option LatencyRange
deriving DecidableEq

/-- `JackTransportClient::getCurrentFrame` (JackTransportClient.cpp, lines
48-55): `if (!client) return 0;` then the queried transport frame. -/
def getCurrentFrame (client : Option JackServerState) : ℕ :=
  match client with
  | none => 0
  | some j => j.posFrame

/-- `JackTransportClient::isTransportRolling` (JackTransportClient.cpp,
lines 57-63): `if (!client) return false;` then the rolling state. -/
def isTransportRolling (client : Option JackServerState) : Bool :=
  match client with
  | none => false
  | some j => j.rolling

/-- `JackTransportClient::getSampleRate` (JackTransportClient.cpp, lines
64-67): `if (!client) return 48000;` then the server sample rate. -/
def getSampleRate (client : Option JackServerState) : ℕ :=
  match client with
  | none => 48000
  | some j => j.sampleRate

/-- `JackTransportClient::getPlaybackLatency` (JackTransportClient.cpp,
lines 69-90): `if (!client) return 0;` then 0 when no `system:playback_`
port resolves, else the maximum of the latency range of that port. -/
def getPlaybackLatency (client : Option JackServerState) : ℕ :=
  match client with
  | none => 0
  | some j =>
    match j.playbackPort with
    | none => 0
    | some r => r.latMax

end JackTransportClient

/-!
## Verification of the claims
-/

namespace VideoPlayer

theorem mem_eraseKey {fc : List (ℤ × VideoFrame)} {k : ℤ} {p : ℤ × VideoFrame}
    (h : p ∈ eraseKey fc k) : p ∈ fc ∧ p.1 ≠ k := by
  simpa [eraseKey, List.mem_filter] using h

theorem evictOldFrames_eq_self {fc : List (ℤ × VideoFrame)} (order : List ℤ)
    (h : fc.length ≤ MAX_CACHED_FRAMES) :
    evictOldFrames fc order = (fc, order) := by
  cases order with
  | nil => rfl
  | cons oldest rest => simp [evictOldFrames, Nat.not_lt.mpr h]

theorem evictOldFrames_length_le :
    ∀ (order : List ℤ) (fc : List (ℤ × VideoFrame)),
      (∀ p ∈ fc, p.1 ∈ order) →
      (evictOldFrames fc order).1.length ≤ MAX_CACHED_FRAMES
  | [], fc, h => by
    cases fc with
    | nil => simp [evictOldFrames]
    | cons p l => exact absurd (h p (by simp)) (by simp)
  | oldest :: rest, fc, h => by
    rw [evictOldFrames]
    by_cases hlen : fc.length > MAX_CACHED_FRAMES
    · rw [if_pos hlen]
      refine evictOldFrames_length_le rest (eraseKey fc oldest) ?_
      intro p hp
      obtain ⟨hpfc, hpne⟩ := mem_eraseKey hp
      have hmem := h p hpfc
      simp only [List.mem_cons] at hmem
      exact hmem.resolve_left hpne
    · rw [if_neg hlen]
      exact Nat.le_of_not_lt hlen

theorem evictOldFrames_keys :
    ∀ (order : List ℤ) (fc : List (ℤ × VideoFrame)),
      (∀ p ∈ fc, p.1 ∈ order) →
      ∀ p ∈ (evictOldFrames fc order).1, p.1 ∈ (evictOldFrames fc order).2
  | [], fc, h => by
    cases fc with
    | nil => simp [evictOldFrames]
    | cons p l => exact absurd (h p (by simp)) (by simp)
  | oldest :: rest, fc, h => by
    rw [evictOldFrames]
    by_cases hlen : fc.length > MAX_CACHED_FRAMES
    · rw [if_pos hlen]
      refine evictOldFrames_keys rest (eraseKey fc oldest) ?_
      intro p hp
      obtain ⟨hpfc, hpne⟩ := mem_eraseKey hp
      have hmem := h p hpfc
      simp only [List.mem_cons] at hmem
      exact hmem.resolve_left hpne
    · rw [if_neg hlen]
      exact h

theorem evictCache_inv {st : CacheState}
    (h : ∀ p ∈ st.frameCache, p.1 ∈ st.cacheOrder) :
    cacheInv (evictCache st) := by
  exact ⟨evictOldFrames_keys st.cacheOrder st.frameCache h,
         evictOldFrames_length_le st.cacheOrder st.frameCache h⟩

theorem insertFrame_keys {st : CacheState} (i : ℤ) (f : VideoFrame)
    (h : ∀ p ∈ st.frameCache, p.1 ∈ st.cacheOrder) :
    ∀ p ∈ (insertFrame st i f).frameCache, p.1 ∈ (insertFrame st i f).cacheOrder := by
  intro p hp
  simp only [insertFrame, List.mem_cons] at hp
  rcases hp with rfl | hp
  · simp [insertFrame]
  · obtain ⟨hpfc, _⟩ := mem_eraseKey hp
    simp [insertFrame, h p hpfc]

theorem reachableCache_inv {st : CacheState} (h : ReachableCache st) :
    cacheInv st := by
  induction h with
  | load k f hk =>
    constructor
    · intro p hp
      simp only [preloadState, List.mem_map, List.mem_range] at hp ⊢
      obtain ⟨j, hj, rfl⟩ := hp
      exact ⟨j, hj, rfl⟩
    · simpa [preloadState, MAX_CACHED_FRAMES] using hk.trans (by omega)
  | decode st i f hst ih =>
    rw [decodeStep]
    by_cases hc : (st.frameCache.lookup i).isSome
    · simpa [hc] using ih
    · rw [if_neg hc]
      exact evictCache_inv (insertFrame_keys i f ih.1)
  | evict st hst ih => exact evictCache_inv ih.1
  | read st hst ih => exact ih

/-- C7: for every sequence of Frame Store operations the program performs
(the preload inserts of `loadVideo`, the insert-then-evict steps and
already-cached skips of the background decoder, stand-alone evictions, and
reads), the number of cached entries is at most `MAX_CACHED_FRAMES = 300`
after every operation completes. -/
theorem claim7_cache_size_bounded (st : CacheState) (h : ReachableCache st) :
    st.frameCache.length ≤ MAX_CACHED_FRAMES :=
  (reachableCache_inv h).2

theorem claim7_witness :
    (decodeStep (preloadState 2 (fun _ => exFrameA)) 5 exFrameB).frameCache.length
      ≤ MAX_CACHED_FRAMES :=
  claim7_cache_size_bounded _
    (ReachableCache.decode _ 5 exFrameB
      (ReachableCache.load 2 (fun _ => exFrameA) (by decide)))

/-- C1 (counterexample): `evict` does not remove entries behind the playback
cursor.  With `totalFrames = 100` and playback index `p = 7`, the cached
entry at index 5 lies strictly behind the cursor on the shortest circular
path (its playback-relative position `circularDistance 100 7 5 = -2` is
strictly negative), yet `evictOldFrames` — which only trims to the size cap
and never looks at the playback index — leaves the whole cache untouched. -/
theorem claim1_counterexample :
    evictOldFrames [(5, exFrameA), (7, exFrameB)] [5, 7]
        = ([(5, exFrameA), (7, exFrameB)], [5, 7])
      ∧ circularDistance 100 7 5 = -2
      ∧ circularDistance 100 7 5 < 0 := by
  decide

/-- C1 (amended): `evictOldFrames` performs only the FIFO trim to the size
cap — it ignores the playback cursor entirely, leaving the store untouched
whenever `|entries| ≤ MAX_CACHED_FRAMES`, and when above the cap it removes
entries from the front of the insertion order until at or below the cap
(provided every cached key appears in the insertion-order list). -/
theorem claim1_evict_is_fifo_trim (fc : List (ℤ × VideoFrame)) (order : List ℤ) :
    (fc.length ≤ MAX_CACHED_FRAMES → evictOldFrames fc order = (fc, order))
    ∧ ((∀ q ∈ fc, q.1 ∈ order) →
        (evictOldFrames fc order).1.length ≤ MAX_CACHED_FRAMES) :=
  ⟨fun h => evictOldFrames_eq_self order h,
   fun h => evictOldFrames_length_le order fc h⟩

theorem claim1_witness :
    evictOldFrames [(5, exFrameA)] [5] = ([(5, exFrameA)], [5])
    ∧ (evictOldFrames [(5, exFrameA)] [5]).1.length ≤ MAX_CACHED_FRAMES :=
  ⟨(claim1_evict_is_fifo_trim [(5, exFrameA)] [5]).1 (by decide),
   (claim1_evict_is_fifo_trim [(5, exFrameA)] [5]).2 (by decide)⟩

/-- C6 (counterexample): `totalFrames` is the truncation of
`duration * fps`, not the nearest integer.  At `duration = 9.6 s` and
`fps = 1` the product is `9.6`: rounding gives 10, the code computes 9. -/
theorem claim6_counterexample :
    computeTotalFrames (48 / 5) 1 = 9 ∧ round ((48 / 5 : ℚ) * 1) = 10 := by
  constructor
  · norm_num [computeTotalFrames, truncToZero]
  · norm_num [round_eq]

/-- C6 (amended): `totalFrames` is computed at load as the truncation toward
zero of `duration * fps` (`computeTotalFrames`), and no subsequent playback
operation (`play`, `pause`, `stop`, `seek`, `syncToTimestamp`, `update`)
modifies it. -/
theorem claim6_totalFrames_immutable (s : PlayerState) (now : ℤ) (t : ℚ) :
    (play s now).totalFrames = s.totalFrames
    ∧ (pause s).totalFrames = s.totalFrames
    ∧ (stop s).totalFrames = s.totalFrames
    ∧ (seek s now t).totalFrames = s.totalFrames
    ∧ (syncToTimestamp s now t).totalFrames = s.totalFrames
    ∧ (update s now).totalFrames = s.totalFrames := by
  refine ⟨?_, rfl, rfl, ?_, ?_, ?_⟩
  · unfold play; split <;> rfl
  · unfold seek; split <;> rfl
  · unfold syncToTimestamp; split <;> rfl
  · unfold update advanceByTimer; split
    · rfl
    · split
      · split <;> rfl
      · rfl

end VideoPlayer

/-- C10: every `JackTransportClient` accessor is total when the JACK client
failed to initialize (`client == nullptr`): `getCurrentFrame` returns 0,
`isTransportRolling` returns false, `getSampleRate` returns the fallback
48000, and `getPlaybackLatency` returns 0. -/
theorem claim10_jack_null_fallbacks :
    JackTransportClient.getCurrentFrame none = 0
    ∧ JackTransportClient.isTransportRolling none = false
    ∧ JackTransportClient.getSampleRate none = 48000
    ∧ JackTransportClient.getPlaybackLatency none = 0 :=
  ⟨rfl, rfl, rfl, rfl⟩

namespace VideoPlayer

theorem findNearby_eq_firstNearby (fc : List (ℤ × VideoFrame)) (tf i : ℤ) :
    ∀ os : List ℤ,
      findNearby fc tf i os
        = (firstNearby fc tf i os).bind (fun j => fc.lookup j)
  | [] => by simp [findNearby, firstNearby]
  | o :: rest => by
    have ih := findNearby_eq_firstNearby fc tf i rest
    by_cases h1 : 0 ≤ i + o ∧ i + o < tf
    · cases hl : fc.lookup (i + o) with
      | some f =>
        simp [findNearby, firstNearby, candidateHit, h1.1, h1.2, hl]
      | none =>
        simp [findNearby, firstNearby, candidateHit, h1.1, h1.2, hl, ih]
    · rcases not_and_or.mp h1 with h | h <;>
        simp [findNearby, firstNearby, candidateHit, h1, h, ih]

/-- C2 (counterexample): `getCurrentFrame` has no held-frame path through
`lastValidFrameIndex`.  In `heldFramePlayer` the cursor (frame 0) is not
cached, `lastValidFrameIndex = 100` is recorded and frame 100 is still in
the store, yet the call returns `none` (frame 100 is outside the scanned
candidate window `0 ± 5`), where the claim requires the held frame. -/
theorem claim2_counterexample :
    getCurrentFrame heldFramePlayer = none
    ∧ heldFramePlayer.lastValidFrameIndex = 100
    ∧ (heldFramePlayer.cache.frameCache.lookup
        heldFramePlayer.lastValidFrameIndex).isSome = true := by
  decide

/-- C2 (amended): when the player is loaded, `getCurrentFrame` returns the
cached frame at index `current_frame` on a hit; on a miss it returns the
result of the nearby scan over offsets `-5 .. +5` (not a frame held via
`last_valid_frame`); and `lastValidFrameIndex` plays no role at all — the
result is invariant under changing it, and the call never mutates it (the
C++ function mutates no member). -/
theorem claim2_getCurrentFrame_behavior (s : PlayerState) (v : ℤ) (f : VideoFrame) :
    (s.loaded = true →
      s.cache.frameCache.lookup s.currentFrameIndex = some f →
      getCurrentFrame s = some f)
    ∧ getCurrentFrame { s with lastValidFrameIndex := v } = getCurrentFrame s
    ∧ (s.loaded = true →
        s.cache.frameCache.lookup s.currentFrameIndex = none →
        getCurrentFrame s
          = findNearby s.cache.frameCache s.totalFrames s.currentFrameIndex
              offsetsList) := by
  refine ⟨fun hl hc => ?_, rfl, fun hl hc => ?_⟩
  · simp [getCurrentFrame, hl, hc]
  · simp [getCurrentFrame, hl, hc]

theorem claim2_witness :
    getCurrentFrame hitPlayer = some exFrameA
    ∧ getCurrentFrame { hitPlayer with lastValidFrameIndex := 7 }
        = getCurrentFrame hitPlayer :=
  ⟨(claim2_getCurrentFrame_behavior hitPlayer 7 exFrameA).1 rfl (by decide),
   (claim2_getCurrentFrame_behavior hitPlayer 7 exFrameA).2.1⟩

/-- C9: when the player is not loaded the call returns `none`; when the
exact index `current_frame` is not cached, `getCurrentFrame` scans the
candidate indices `current_frame + offset` for `offset` from `-5` to `+5`
in increasing order (plain integer arithmetic, candidates outside
`[0, totalFrames)` skipped) and returns the frame at the first cached
candidate; and a `none` result means every in-range candidate among those
11 indices is uncached. -/
theorem claim9_nearby_scan (s : PlayerState) :
    (s.loaded = false → getCurrentFrame s = none)
    ∧ (s.loaded = true →
        s.cache.frameCache.lookup s.currentFrameIndex = none →
        getCurrentFrame s
          = (firstNearby s.cache.frameCache s.totalFrames s.currentFrameIndex
              offsetsList).bind (fun j => s.cache.frameCache.lookup j))
    ∧ (s.loaded = true → getCurrentFrame s = none →
        ∀ o ∈ offsetsList,
          0 ≤ s.currentFrameIndex + o →
          s.currentFrameIndex + o < s.totalFrames →
          s.cache.frameCache.lookup (s.currentFrameIndex + o) = none) := by
  refine ⟨fun hl => ?_, fun hl hc => ?_, fun hl hnone o ho hlo hhi => ?_⟩
  · simp [getCurrentFrame, hl]
  · simp [getCurrentFrame, hl, hc, findNearby_eq_firstNearby]
  · cases hc : s.cache.frameCache.lookup s.currentFrameIndex with
    | some f => simp [getCurrentFrame, hl, hc] at hnone
    | none =>
      have hEq : getCurrentFrame s
          = (firstNearby s.cache.frameCache s.totalFrames s.currentFrameIndex
              offsetsList).bind (fun j => s.cache.frameCache.lookup j) := by
        simp [getCurrentFrame, hl, hc, findNearby_eq_firstNearby]
      rw [hEq] at hnone
      cases hf : firstNearby s.cache.frameCache s.totalFrames
          s.currentFrameIndex offsetsList with
      | some j =>
        have hhit := List.find?_some hf
        rw [hf] at hnone
        have hnone2 : s.cache.frameCache.lookup j = none := hnone
        simp [candidateHit, hnone2] at hhit
      | none =>
        have hall := List.find?_eq_none.mp hf
        have hmem : s.currentFrameIndex + o
            ∈ offsetsList.map (fun x => s.currentFrameIndex + x) :=
          List.mem_map.mpr ⟨o, ho, rfl⟩
        have hno := hall _ hmem
        cases hl2 : s.cache.frameCache.lookup (s.currentFrameIndex + o) with
        | none => rfl
        | some v =>
          refine absurd ?_ hno
          simp [candidateHit, hlo, hhi, hl2]

theorem claim9_witness :
    getCurrentFrame nearbyPlayer
      = (firstNearby nearbyPlayer.cache.frameCache nearbyPlayer.totalFrames
          nearbyPlayer.currentFrameIndex offsetsList).bind
          (fun j => nearbyPlayer.cache.frameCache.lookup j) :=
  (claim9_nearby_scan nearbyPlayer).2.1 rfl (by decide)

end VideoPlayer

namespace VideoPlayer

theorem clampFrame_nonneg (tf x : ℤ) : 0 ≤ clampFrame tf x :=
  le_max_left 0 _

theorem clampFrame_lt {tf : ℤ} (x : ℤ) (h : 0 < tf) : clampFrame tf x < tf :=
  max_lt h (lt_of_le_of_lt (min_le_right _ _) (by omega))

theorem wrapTime_eq_self {d t : ℚ} (hd : 0 < d) (h0 : 0 ≤ t) (h1 : t < d) :
    wrapTime d t = t := by
  have hq0 : 0 ≤ t / d := div_nonneg h0 hd.le
  have hq1 : t / d < 1 := (div_lt_one hd).mpr h1
  have hfl : ⌊t / d⌋ = 0 := by
    rw [Int.floor_eq_zero_iff]
    exact ⟨hq0, hq1⟩
  have htr : truncToZero (t / d) = 0 := by
    rw [truncToZero, if_neg (not_lt.mpr hq0), hfl]
  have hm : cFmod t d = t := by
    rw [cFmod, htr]
    push_cast
    ring
  rw [wrapTime, hm, if_neg (not_lt.mpr h0)]

/-- C3 (counterexample): `syncToTimestamp` is gated on `playing`.  On a
loaded player with 250 frames that is paused, the call neither moves the
cursor nor sets `externalSyncActive` nor records the sync instant — it is
a complete no-op, where the claim requires the frame store, flag and
timestamp updates for every audio timestamp. -/
theorem claim3_counterexample :
    syncToTimestamp pausedPlayer 5 3 = pausedPlayer
    ∧ pausedPlayer.externalSyncActive = false
    ∧ pausedPlayer.lastSyncTime = 0 := by
  decide

/-- C3 (amended): when the player is loaded, has a positive frame count and
is playing, `syncToTimestamp t` stores into `current_frame` the wrapped
target frame derived from `t * fps` — a value in `[0, totalFrames)`, with
negative times wrapped positively into range (`wrapTime`) and positive
overrun clamped (`clampFrame`) — sets `externalSyncActive := true` and
`lastSyncTime := now`; when the player is unloaded, empty or paused the
call is a no-op. -/
theorem claim3_syncToTimestamp_behavior (s : PlayerState) (now : ℤ) (t : ℚ) :
    ((s.loaded = false ∨ s.totalFrames = 0 ∨ s.playing = false) →
        syncToTimestamp s now t = s)
    ∧ (s.loaded = true → s.playing = true → 0 < s.totalFrames →
        (syncToTimestamp s now t).currentFrameIndex
            = clampFrame s.totalFrames
                (truncToZero (wrapTime s.duration t * s.fps))
        ∧ 0 ≤ (syncToTimestamp s now t).currentFrameIndex
        ∧ (syncToTimestamp s now t).currentFrameIndex < s.totalFrames
        ∧ (syncToTimestamp s now t).externalSyncActive = true
        ∧ (syncToTimestamp s now t).lastSyncTime = now) := by
  constructor
  · intro h
    rw [syncToTimestamp, if_pos h]
  · intro hl hp htf
    have hg : ¬(s.loaded = false ∨ s.totalFrames = 0 ∨ s.playing = false) := by
      simp [hl, hp]
      omega
    have hres : syncToTimestamp s now t
        = { s with
            currentFrameIndex := clampFrame s.totalFrames
              (truncToZero (wrapTime s.duration t * s.fps)),
            externalSyncActive := true,
            lastSyncTime := now } := by
      rw [syncToTimestamp, if_neg hg]
    rw [hres]
    exact ⟨rfl, clampFrame_nonneg _ _, clampFrame_lt _ htf, rfl, rfl⟩

theorem claim3_witness :
    syncToTimestamp pausedPlayer 11 2 = pausedPlayer
    ∧ (syncToTimestamp basePlayer 7 (-1)).externalSyncActive = true
    ∧ (syncToTimestamp basePlayer 7 (-1)).lastSyncTime = 7
    ∧ 0 ≤ (syncToTimestamp basePlayer 7 (-1)).currentFrameIndex
    ∧ (syncToTimestamp basePlayer 7 (-1)).currentFrameIndex
        < basePlayer.totalFrames :=
  have h := (claim3_syncToTimestamp_behavior basePlayer 7 (-1)).2 rfl rfl
    (by decide)
  ⟨(claim3_syncToTimestamp_behavior pausedPlayer 11 2).1 (Or.inr (Or.inr rfl)),
   h.2.2.2.1, h.2.2.2.2, h.2.1, h.2.2.1⟩

/-- C4 (counterexample): `seek` and `syncToTimestamp` disagree on negative
times.  On `basePlayer` (25 fps, 10 s, 250 frames) at `t = -1 s`, `seek`
computes `(int)(-1 * 25) = -25` and clamps it to frame 0, while
`syncToTimestamp` first wraps `-1` to `9` via `fmod` and lands on frame
225 — the two operations do not share the wrap-into-range arithmetic. -/
theorem claim4_counterexample :
    (seek basePlayer 0 (-1)).currentFrameIndex = 0
    ∧ (syncToTimestamp basePlayer 0 (-1)).currentFrameIndex = 225 := by
  constructor
  · norm_num [seek, basePlayer, truncToZero, clampFrame]
  · norm_num [syncToTimestamp, basePlayer, wrapTime, cFmod, truncToZero,
      clampFrame]

/-- C4 (amended): for times `t` inside `[0, duration)` — where the `fmod`
wrap of `syncToTimestamp` is the identity — and a loaded, playing player,
`seek t` and `syncToTimestamp t` store the same `current_frame`
(`clampFrame (truncToZero (t * fps))`), and `seek` touches neither the
external-sync flag nor the sync instant.  Outside that range the two
differ: `seek` clamps while `syncToTimestamp` wraps (see the
counterexample); `seek` also works while paused and resets the internal
frame timer. -/
theorem claim4_seek_sync_agree (s : PlayerState) (now : ℤ) (t : ℚ)
    (hl : s.loaded = true) (hp : s.playing = true) (htf : s.totalFrames ≠ 0)
    (hd : 0 < s.duration) (h0 : 0 ≤ t) (h1 : t < s.duration) :
    (seek s now t).currentFrameIndex
        = (syncToTimestamp s now t).currentFrameIndex
    ∧ (seek s now t).externalSyncActive = s.externalSyncActive
    ∧ (seek s now t).lastSyncTime = s.lastSyncTime := by
  have hg1 : ¬(s.loaded = false ∨ s.totalFrames = 0) := by simp [hl, htf]
  have hg2 : ¬(s.loaded = false ∨ s.totalFrames = 0 ∨ s.playing = false) := by
    simp [hl, htf, hp]
  have hw := wrapTime_eq_self hd h0 h1
  simp [seek, syncToTimestamp, if_neg hg1, if_neg hg2, hw]

theorem claim4_witness :
    (seek basePlayer 3 2).currentFrameIndex
        = (syncToTimestamp basePlayer 3 2).currentFrameIndex
    ∧ (seek basePlayer 3 2).externalSyncActive = basePlayer.externalSyncActive
    ∧ (seek basePlayer 3 2).lastSyncTime = basePlayer.lastSyncTime :=
  claim4_seek_sync_agree basePlayer 3 2 rfl rfl (by decide)
    (by norm_num [basePlayer]) (by norm_num) (by norm_num [basePlayer])

/-- C5 (counterexample): the background decoder does not use circular
distance or `SEEK_THRESHOLD` to decide repositioning.  With
`totalFrames = 1000`, decoder cursor 0 and playback at 100 (previously
observed at 100), the circular distance from cursor to playback is
`100 > SEEK_THRESHOLD = 50`, so the claim requires a seek; the code
compares the playback index only against its previously observed value
(`100 < 100-10` and `100 > 100+200` are both false) and leaves the decoder
state untouched — no seek is scheduled. -/
theorem claim5_counterexample :
    SEEK_THRESHOLD = 50
    ∧ circularDistance 1000 0 100 = 100
    ∧ decoderObservePlayback ⟨0, false, 100⟩ 100 = ⟨0, false, 100⟩ := by
  decide

/-- C5 (amended): in each iteration the decoder re-positions — cursor to
`max (playback - 10) 0` and a seek scheduled — exactly when the newly read
playback frame jumped relative to the last observed one:
`playback < lastPlaybackFrame - 10` or `playback > lastPlaybackFrame + 200`
(plain integer comparisons; no circular distance, `SEEK_THRESHOLD` is not
consulted).  Otherwise it keeps its cursor and any previously scheduled
seek and decodes sequentially. -/
theorem claim5_decoder_jump_reposition (ds : DecoderState) (c : ℤ) :
    ((c < ds.lastPlaybackFrame - 10 ∨ c > ds.lastPlaybackFrame + 200) →
      decoderObservePlayback ds c = ⟨max (c - 10) 0, true, c⟩)
    ∧ (ds.lastPlaybackFrame - 10 ≤ c → c ≤ ds.lastPlaybackFrame + 200 →
      decoderObservePlayback ds c
        = ⟨ds.sequentialFrameIndex, ds.needSeek, c⟩) := by
  constructor
  · intro h
    have hmax : (if c - 10 < 0 then (0 : ℤ) else c - 10) = max (c - 10) 0 := by
      split
      · exact (max_eq_right (by omega)).symm
      · exact (max_eq_left (by omega)).symm
    rw [decoderObservePlayback, if_pos h]
    show DecoderState.mk (if c - 10 < 0 then 0 else c - 10) true c = _
    rw [hmax]
  · intro h1 h2
    rw [decoderObservePlayback, if_neg (by omega)]

theorem claim5_witness :
    decoderObservePlayback ⟨0, false, 100⟩ 400 = ⟨max (400 - 10) 0, true, 400⟩
    ∧ decoderObservePlayback ⟨7, true, 100⟩ 150 = ⟨7, true, 150⟩ :=
  ⟨(claim5_decoder_jump_reposition ⟨0, false, 100⟩ 400).1 (by decide),
   (claim5_decoder_jump_reposition ⟨7, true, 100⟩ 150).2 (by decide) (by decide)⟩

theorem loopCount_self_zero (fd : ℤ) : loopCount fd 0 = 0 := by
  rw [loopCount]
  split
  · rfl
  · simp

/-- C8: while `externalSyncActive` holds, `update` is the identity whenever
fewer than 100 ms have elapsed since the last sync instant; the flag is
cleared only when at least 100 ms have elapsed; and on such a timeout (with
the player playing, loaded, non-empty) `update` clears the flag, resets the
internal timer tick to `now` and advances `current_frame` by the number of
whole frame-durations elapsed since that (just reset) tick — zero, so the
cursor is unchanged in the timeout call itself. -/
theorem claim8_update_sync_gate (s : PlayerState) (now : ℤ)
    (hx : s.externalSyncActive = true) :
    (Int.tdiv (now - s.lastSyncTime) 1000 < 100 → update s now = s)
    ∧ ((update s now).externalSyncActive = false →
        100 ≤ Int.tdiv (now - s.lastSyncTime) 1000)
    ∧ (s.playing = true → s.loaded = true → s.totalFrames ≠ 0 →
        100 ≤ Int.tdiv (now - s.lastSyncTime) 1000 →
        (update s now).externalSyncActive = false
        ∧ (update s now).currentFrameIndex = s.currentFrameIndex
        ∧ (update s now).lastFrameTime = now) := by
  by_cases hg : s.playing = false ∨ s.loaded = false ∨ s.totalFrames = 0
  · have hu : update s now = s := by rw [update, if_pos hg]
    refine ⟨fun _ => hu, fun hfalse => ?_, fun hp hl htf _ => ?_⟩
    · rw [hu, hx] at hfalse
      exact absurd hfalse (by simp)
    · rcases hg with h | h | h
      · rw [hp] at h
        exact absurd h (by simp)
      · rw [hl] at h
        exact absurd h (by simp)
      · exact absurd h htf
  · have hu : update s now
        = if Int.tdiv (now - s.lastSyncTime) 1000 < 100 then s
          else advanceByTimer
            { s with externalSyncActive := false, lastFrameTime := now } now := by
      rw [update, if_neg hg, hx]
      simp
    by_cases ht : Int.tdiv (now - s.lastSyncTime) 1000 < 100
    · rw [hu, if_pos ht]
      refine ⟨fun _ => rfl, fun hfalse => ?_, fun _ _ _ habs => ?_⟩
      · rw [hx] at hfalse
        exact absurd hfalse (by simp)
      · exact absurd habs (not_le.mpr ht)
    · rw [hu, if_neg ht]
      refine ⟨fun hlt => absurd hlt ht, fun _ => not_lt.mp ht,
        fun _ _ _ _ => ⟨?_, ?_, ?_⟩⟩
      · simp [advanceByTimer]
      · simp [advanceByTimer, sub_self, loopCount_self_zero, advanceFrames]
      · simp [advanceByTimer, sub_self, loopCount_self_zero]

theorem claim8_witness :
    update syncPlayer 50000 = syncPlayer
    ∧ (update syncPlayer 200000).externalSyncActive = false
    ∧ (update syncPlayer 200000).currentFrameIndex
        = syncPlayer.currentFrameIndex
    ∧ (update syncPlayer 200000).lastFrameTime = 200000 :=
  have h2 := (claim8_update_sync_gate syncPlayer 200000 rfl).2.2 rfl rfl
    (by decide) (by decide)
  ⟨(claim8_update_sync_gate syncPlayer 50000 rfl).1 (by decide),
   h2.1, h2.2.1, h2.2.2⟩

end VideoPlayer
